import Mathlib

/-!
Verification of the rate-limiter core in `src/simple-rate-limiter.js`
(Izemi/Distributed-Rate-Limiter-API).

The JavaScript source is shallowly embedded: time (`Date.now()`) and the
external counting store are explicit parameters, JavaScript exceptions are
an explicit `Except`, and a JavaScript object field that some code path
leaves unset is an `Option` that is `none` there (accessing such a field
in JavaScript yields `undefined`).
-/

namespace RateLimiter

/-- The `API_KEYS` object literal (src/simple-rate-limiter.js, lines 11-17):
credential string to tier name. -/
def API_KEYS : List (String × String) :=
  [("sk_test_free_1", "free"),
   ("sk_test_free_2", "free"),
   ("sk_test_premium_1", "premium"),
   ("sk_test_premium_2", "premium"),
   ("sk_test_enterprise_1", "enterprise")]

/-- The `TIER_LIMITS` object literal (lines 19-23): tier name to quota. -/
def TIER_LIMITS : List (String × Nat) :=
  [("free", 5), ("premium", 20), ("enterprise", 100)]

/-- Property names that a JavaScript object literal inherits from
`Object.prototype`.  `API_KEYS[apiKey]` is an ordinary property access, so
for these names it returns the inherited value (a function, or for
`__proto__` the prototype object itself) — a truthy, non-string value —
rather than `undefined`. -/
def objectPrototypeProps : List String :=
  ["constructor", "hasOwnProperty", "isPrototypeOf", "propertyIsEnumerable",
   "toLocaleString", "toString", "valueOf",
   "__defineGetter__", "__defineSetter__", "__lookupGetter__",
   "__lookupSetter__", "__proto__"]

/-- The JavaScript value produced by `API_KEYS[apiKey] || 'free'`: either a
tier-name string, or a truthy non-string value inherited from
`Object.prototype` (named by the property that produced it). -/
inductive JSTier where
  | str (s : String)
  | protoVal (name : String)
deriving DecidableEq, Repr

/-- `getTierFromAPIKey` (lines 26-28): `return API_KEYS[apiKey] || 'free'`.
Property access finds an own property first, then consults
`Object.prototype`; only when the access yields `undefined` (falsy) does
`|| 'free'` supply the default. -/
def getTierFromAPIKey (apiKey : String) : JSTier :=
  match API_KEYS.lookup apiKey with
  | some t => .str t
  | none =>
    if apiKey ∈ objectPrototypeProps then .protoVal apiKey else .str "free"

/-- `getRateLimitForAPIKey` (lines 31-34): `TIER_LIMITS[tier]`.  When
`tier` is a non-string value, the property key is its string coercion
(e.g. `"function toString() ..."`), which is not a key of `TIER_LIMITS`
nor of `Object.prototype`, so the access yields `undefined` (`none`). -/
def getRateLimitForAPIKey (apiKey : String) : Option Nat :=
  match getTierFromAPIKey apiKey with
  | .str t => TIER_LIMITS.lookup t
  | .protoVal _ => none

/-- `getCurrentWindow` (lines 37-40): `Math.floor(now / (WINDOW_SIZE * 1000))`
with `now` the epoch time in milliseconds, here an explicit argument. -/
def getCurrentWindow (now windowSize : Nat) : Nat :=
  now / (windowSize * 1000)

/-- Line 8: `const WINDOW_SIZE = parseInt(process.env.WINDOW_SIZE) || 60`.
The argument is the result of `parseInt` on the environment variable:
`none` for `NaN` (unset or unparsable), otherwise the parsed integer.
`NaN` and `0` are falsy, so they fall through to the default `60`; any
other value — negative values included — is kept unchanged.  No
validation or error path exists. -/
def resolveWindowSize (envParsed : Option Int) : Int :=
  match envParsed with
  | none => 60
  | some v => if v = 0 then 60 else v

/-- `Math.floor(now / (w * 1000))` over signed integers, as evaluated when
the configured `WINDOW_SIZE` is negative (`Int.fdiv` is floor division,
matching `Math.floor` of an exact real quotient). -/
def getCurrentWindowZ (now w : Int) : Int :=
  Int.fdiv now (w * 1000)

/-- The Redis key `rate_limit:${apiKey}:${currentWindow}` (line 47). -/
def redisKey (apiKey : String) (window : Nat) : String :=
  "rate_limit:" ++ apiKey ++ ":" ++ toString window

/-- The external counting store: per-key integer counters (absent keys
count as 0, as Redis INCR creates them at 0) and per-key expiry.
Modelled from the spec: the store itself is an external collaborator
(src/redis-client.js is a thin client for it and is not under src/);
the spec describes it as a Redis-like service offering atomic
increment-and-return and set-expiry-in-seconds operations. -/
structure Store where
  counts : String → Nat
  ttl : String → Option Nat

/-- A store with no keys. -/
def freshStore : Store :=
  { counts := fun _ => 0, ttl := fun _ => none }

/-- `redisClient.incr(key)`: atomically increment the counter at `key`
(creating it at 0) and return the new value. -/
def Store.incr (st : Store) (key : String) : Nat × Store :=
  (st.counts key + 1,
   { st with counts := fun k => if k = key then st.counts key + 1 else st.counts k })

/-- `redisClient.expire(key, seconds)`: set the key's expiry. -/
def Store.expire (st : Store) (key : String) (seconds : Nat) : Store :=
  { st with ttl := fun k => if k = key then some seconds else st.ttl k }

/-- How the store behaves on one `checkRateLimit` call: healthy, or the
`incr` operation throws, or the `expire` operation (if reached) throws. -/
inductive CallFault where
  | ok
  | incrFault
  | expireFault
deriving DecidableEq, Repr

/-- A store operation failure (Redis unreachable or erroring). -/
inductive StoreErr where
  | unavailable
deriving DecidableEq, Repr

/-- The object returned by `checkRateLimit`.  `limit` is `none` when the
tier lookup produced `undefined`; `remaining` is `none` when the field is
absent (denied branch, line 86) or its value is `NaN` (`undefined`
arithmetic); `degraded` is a field no code path ever sets, so reading it
always yields `undefined` (`none`). -/
structure Decision where
  allowed : Bool
  count : Nat
  limit : Option Nat
  tier : JSTier
  remaining : Option Nat
  degraded : Option Bool
deriving DecidableEq, Repr

/-- The healthy-path decision (lines 71-90): denied when
`count > userLimit` — with `userLimit` `undefined` the comparison is a
`NaN` comparison and is `false` — otherwise allowed with
`remaining = userLimit - count`. -/
def healthyDecision (count : Nat) (userLimit : Option Nat) (tier : JSTier) :
    Decision :=
  match userLimit with
  | some q =>
    if count > q then
      { allowed := false, count := count, limit := some q, tier := tier,
        remaining := none, degraded := none }
    else
      { allowed := true, count := count, limit := some q, tier := tier,
        remaining := some (q - count), degraded := none }
  | none =>
    { allowed := true, count := count, limit := none, tier := tier,
      remaining := none, degraded := none }

/-- The catch-block decision (line 100): fail open. -/
def failOpenDecision (apiKey : String) : Decision :=
  { allowed := true, count := 0, limit := getRateLimitForAPIKey apiKey,
    tier := getTierFromAPIKey apiKey,
    remaining := getRateLimitForAPIKey apiKey, degraded := none }

/-- The `try` body of `checkRateLimit` (lines 57-90): increment, set the
expiry `WINDOW_SIZE * 2` when the returned count is 1, then build the
decision.  A throwing store operation yields `Except.error`; the store
state reached so far is returned either way (a caught exception does not
roll back the increment already performed in the store). -/
def checkRateLimitTry (apiKey : String) (windowSize now : Nat)
    (fault : CallFault) (st : Store) : Except StoreErr Decision × Store :=
  let currentWindow := getCurrentWindow now windowSize
  let userLimit := getRateLimitForAPIKey apiKey
  let tier := getTierFromAPIKey apiKey
  let key := redisKey apiKey currentWindow
  match fault with
  | .incrFault => (.error .unavailable, st)
  | .ok =>
    let (count, st1) := st.incr key
    if count = 1 then
      (.ok (healthyDecision count userLimit tier),
       st1.expire key (windowSize * 2))
    else
      (.ok (healthyDecision count userLimit tier), st1)
  | .expireFault =>
    let (count, st1) := st.incr key
    if count = 1 then
      (.error .unavailable, st1)
    else
      (.ok (healthyDecision count userLimit tier), st1)

/-- `checkRateLimit` (lines 43-102): the `try`/`catch` wrapper.  Every
store error is absorbed into the fail-open decision; the function always
returns a `Decision`. -/
def checkRateLimit (apiKey : String) (windowSize now : Nat)
    (fault : CallFault) (st : Store) : Decision × Store :=
  match checkRateLimitTry apiKey windowSize now fault st with
  | (.ok d, st') => (d, st')
  | (.error _, st') => (failOpenDecision apiKey, st')

/-- The store after `n` sequential healthy calls for one credential at one
timestamp. -/
def runN (apiKey : String) (windowSize now : Nat) (st : Store) : Nat → Store
  | 0 => st
  | n + 1 =>
    (checkRateLimit apiKey windowSize now .ok
      (runN apiKey windowSize now st n)).2

/-- The decision of the `i`-th (1-based) sequential healthy call starting
from store `st`. -/
def seqDecision (apiKey : String) (windowSize now : Nat) (st : Store)
    (i : Nat) : Decision :=
  (checkRateLimit apiKey windowSize now .ok
    (runN apiKey windowSize now st (i - 1))).1

/-- The `/api/resource` handler's observable response (lines 120-160):
401 without rate-limit metadata when the credential header is missing or
empty (falsy); otherwise the rate-limit headers — limit, remaining
(`result.remaining || 0`), window length, tier — with either a 429 body
carrying `retryAfter` or a 200 success body. -/
inductive ApiResponse where
  | unauthorized
  | rateLimited (limit : Option Nat) (remaining windowLen : Nat)
      (tier : JSTier) (retryAfter : Nat)
  | success (limit : Option Nat) (remaining windowLen : Nat) (tier : JSTier)
deriving DecidableEq, Repr

/-- The `app.get('/api/resource')` handler (lines 120-160): reject a
missing/empty credential with 401, otherwise call `checkRateLimit`, set
the four rate-limit headers, and answer 429 with a retry-after of
`WINDOW_SIZE` on denial, 200 on allowance. -/
def handleApiResource (apiKey : Option String) (windowSize now : Nat)
    (fault : CallFault) (st : Store) : ApiResponse × Store :=
  match apiKey with
  | none => (.unauthorized, st)
  | some k =>
    if k = "" then (.unauthorized, st)
    else
      let (d, st') := checkRateLimit k windowSize now fault st
      if d.allowed then
        (.success d.limit (d.remaining.getD 0) windowSize d.tier, st')
      else
        (.rateLimited d.limit (d.remaining.getD 0) windowSize d.tier
          windowSize, st')

/-! ### Helper lemmas about one healthy call and sequential calls -/

theorem checkRateLimit_ok_fst (apiKey : String) (windowSize now : Nat)
    (st : Store) :
    (checkRateLimit apiKey windowSize now .ok st).1 =
      healthyDecision (st.counts (redisKey apiKey (getCurrentWindow now windowSize)) + 1)
        (getRateLimitForAPIKey apiKey) (getTierFromAPIKey apiKey) := by
  unfold checkRateLimit checkRateLimitTry Store.incr
  by_cases h : st.counts (redisKey apiKey (getCurrentWindow now windowSize)) + 1 = 1 <;>
    simp [h]

theorem checkRateLimit_ok_counts (apiKey : String) (windowSize now : Nat)
    (st : Store) :
    (checkRateLimit apiKey windowSize now .ok st).2.counts
        (redisKey apiKey (getCurrentWindow now windowSize)) =
      st.counts (redisKey apiKey (getCurrentWindow now windowSize)) + 1 := by
  unfold checkRateLimit checkRateLimitTry Store.incr Store.expire
  by_cases h : st.counts (redisKey apiKey (getCurrentWindow now windowSize)) + 1 = 1 <;>
    simp [h]

theorem checkRateLimit_ok_ttl_unchanged (apiKey : String) (windowSize now : Nat)
    (st : Store)
    (h : st.counts (redisKey apiKey (getCurrentWindow now windowSize)) ≠ 0) :
    (checkRateLimit apiKey windowSize now .ok st).2.ttl = st.ttl := by
  unfold checkRateLimit checkRateLimitTry Store.incr
  have h1 : st.counts (redisKey apiKey (getCurrentWindow now windowSize)) + 1 ≠ 1 := by
    omega
  simp [h1]

theorem runN_counts (apiKey : String) (windowSize now : Nat) (st : Store)
    (n : Nat) :
    (runN apiKey windowSize now st n).counts
        (redisKey apiKey (getCurrentWindow now windowSize)) =
      st.counts (redisKey apiKey (getCurrentWindow now windowSize)) + n := by
  induction n with
  | zero => rfl
  | succ n ih =>
    have h := checkRateLimit_ok_counts apiKey windowSize now
      (runN apiKey windowSize now st n)
    unfold runN
    rw [h, ih]
    omega

theorem healthyDecision_count (c : Nat) (ul : Option Nat) (t : JSTier) :
    (healthyDecision c ul t).count = c := by
  unfold healthyDecision
  cases ul with
  | none => rfl
  | some q => by_cases h : c > q <;> simp [h]

theorem healthyDecision_allowed_iff (c q : Nat) (t : JSTier) :
    (healthyDecision c (some q) t).allowed = true ↔ c ≤ q := by
  unfold healthyDecision
  by_cases h : c > q
  · simp [h]
  · simp [h]
    omega

/-- C1: with the store healthy, a decision is allowed exactly when the
count returned by the atomic increment is at most the quota; hence for
sequential calls within one window starting from a fresh store, the first
`Q` decisions are allowed and the `(Q+1)`-th is denied. -/
theorem checkRateLimit_quota_boundary (apiKey : String) (q windowSize now : Nat)
    (hQ : getRateLimitForAPIKey apiKey = some q) :
    (∀ st : Store,
      ((checkRateLimit apiKey windowSize now .ok st).1.allowed = true
        ↔ (checkRateLimit apiKey windowSize now .ok st).1.count ≤ q))
    ∧ ∀ i : Nat, 1 ≤ i →
        ((seqDecision apiKey windowSize now freshStore i).allowed = true ↔ i ≤ q) := by
  constructor
  · intro st
    rw [checkRateLimit_ok_fst, hQ, healthyDecision_allowed_iff,
      healthyDecision_count]
  · intro i hi
    unfold seqDecision
    rw [checkRateLimit_ok_fst, hQ, healthyDecision_allowed_iff,
      runN_counts]
    show (0 : Nat) + (i - 1) + 1 ≤ q ↔ i ≤ q
    omega

/-- C1 witness: for `sk_test_free_1` (quota 5) the 5th sequential call is
allowed and the 6th is denied. -/
theorem checkRateLimit_quota_boundary_witness :
    (seqDecision "sk_test_free_1" 60 0 freshStore 5).allowed = true
    ∧ ¬ (seqDecision "sk_test_free_1" 60 0 freshStore 6).allowed = true := by
  have h := checkRateLimit_quota_boundary "sk_test_free_1" 5 60 0 (by decide)
  exact ⟨(h.2 5 (by decide)).2 (by decide),
    fun hc => by simpa using (h.2 6 (by decide)).1 hc⟩

/-- C2 counterexample: the 6th sequential call for `sk_test_free_1`
(quota 5) is a successful increment returning count 6, yet the denied
decision carries no `remaining` field at all (reading it yields
`undefined`), not the claimed `max(0, quota − c) = 0`. -/
theorem denied_decision_lacks_remaining :
    (seqDecision "sk_test_free_1" 60 0 freshStore 6).count = 6
    ∧ (seqDecision "sk_test_free_1" 60 0 freshStore 6).allowed = false
    ∧ (seqDecision "sk_test_free_1" 60 0 freshStore 6).remaining = none
    ∧ ¬ (seqDecision "sk_test_free_1" 60 0 freshStore 6).remaining =
        some (max 0 (5 - 6)) := by
  decide

/-- C2 amended: on a healthy call with count `c`: if the decision is
allowed then `remaining = quota − c` and `c ≤ quota` (so `remaining` is
never negative); if it is denied the decision carries no `remaining`
field (`undefined`, rendered as 0 by the boundary layer). -/
theorem checkRateLimit_remaining_spec (apiKey : String) (q windowSize now : Nat)
    (st : Store) (hQ : getRateLimitForAPIKey apiKey = some q) :
    ((checkRateLimit apiKey windowSize now .ok st).1.allowed = true →
       (checkRateLimit apiKey windowSize now .ok st).1.remaining =
         some (q - (checkRateLimit apiKey windowSize now .ok st).1.count)
       ∧ (checkRateLimit apiKey windowSize now .ok st).1.count ≤ q)
    ∧ ((checkRateLimit apiKey windowSize now .ok st).1.allowed = false →
       (checkRateLimit apiKey windowSize now .ok st).1.remaining = none) := by
  rw [checkRateLimit_ok_fst, hQ]
  unfold healthyDecision
  by_cases h : st.counts (redisKey apiKey (getCurrentWindow now windowSize)) + 1 > q
  · simp [h]
  · simp [h]
    omega

/-- C2 amended witness: the first call for `sk_test_free_1` is allowed
with `remaining = 5 − 1 = 4`. -/
theorem checkRateLimit_remaining_spec_witness :
    (checkRateLimit "sk_test_free_1" 60 0 .ok freshStore).1.remaining =
      some (5 - (checkRateLimit "sk_test_free_1" 60 0 .ok freshStore).1.count) := by
  refine ((checkRateLimit_remaining_spec "sk_test_free_1" 5 60 0 freshStore
    (by decide)).1 ?_).1
  decide

/-- C3 counterexample: the fail-open decision does return
`allowed = true`, `count = 0` and `remaining = quota`, but it is not
flagged as degraded: no code path sets any `degraded` field, so reading
it yields `undefined`. -/
theorem failopen_not_flagged_degraded :
    (checkRateLimit "sk_test_free_1" 60 0 .incrFault freshStore).1.allowed = true
    ∧ (checkRateLimit "sk_test_free_1" 60 0 .incrFault freshStore).1.count = 0
    ∧ (checkRateLimit "sk_test_free_1" 60 0 .incrFault freshStore).1.remaining = some 5
    ∧ (checkRateLimit "sk_test_free_1" 60 0 .incrFault freshStore).1.degraded = none
    ∧ ¬ (checkRateLimit "sk_test_free_1" 60 0 .incrFault freshStore).1.degraded =
        some true := by
  decide

/-- C3 amended: when the store increment fails, `checkRateLimit` fails
open — `allowed = true`, `observedCount = 0`, `remaining = quota`, the
store untouched — but the decision carries no degraded flag; the
degradation is only logged, not exposed on the Decision. -/
theorem checkRateLimit_failopen_spec (apiKey : String) (q windowSize now : Nat)
    (st : Store) (hQ : getRateLimitForAPIKey apiKey = some q) :
    checkRateLimit apiKey windowSize now .incrFault st =
      ({ allowed := true, count := 0, limit := some q,
         tier := getTierFromAPIKey apiKey, remaining := some q,
         degraded := none }, st) := by
  simp [checkRateLimit, checkRateLimitTry, failOpenDecision, hQ]

/-- C3 amended witness: the fail-open decision for `sk_test_free_1`. -/
theorem checkRateLimit_failopen_spec_witness :
    checkRateLimit "sk_test_free_1" 60 0 .incrFault freshStore =
      ({ allowed := true, count := 0, limit := some 5,
         tier := getTierFromAPIKey "sk_test_free_1", remaining := some 5,
         degraded := none }, freshStore) :=
  checkRateLimit_failopen_spec "sk_test_free_1" 5 60 0 freshStore (by decide)

/-- C4: exactly the healthy call whose increment returns count 1 sets an
expiry on the (credential, window) key, of `WINDOW_SIZE * 2` seconds,
which is at least `2 × windowLength`; a call returning any other count
leaves every expiry unchanged. -/
theorem checkRateLimit_expiry_spec (apiKey : String) (windowSize now : Nat)
    (st : Store) :
    ((checkRateLimit apiKey windowSize now .ok st).1.count = 1 →
       (checkRateLimit apiKey windowSize now .ok st).2.ttl
           (redisKey apiKey (getCurrentWindow now windowSize)) =
         some (windowSize * 2)
       ∧ 2 * windowSize ≤ windowSize * 2)
    ∧ ((checkRateLimit apiKey windowSize now .ok st).1.count ≠ 1 →
       (checkRateLimit apiKey windowSize now .ok st).2.ttl = st.ttl) := by
  have hc : (checkRateLimit apiKey windowSize now .ok st).1.count =
      st.counts (redisKey apiKey (getCurrentWindow now windowSize)) + 1 := by
    rw [checkRateLimit_ok_fst, healthyDecision_count]
  constructor
  · intro h1
    refine ⟨?_, by omega⟩
    have h0 : st.counts (redisKey apiKey (getCurrentWindow now windowSize)) = 0 := by
      rw [hc] at h1
      omega
    unfold checkRateLimit checkRateLimitTry Store.incr Store.expire
    simp [h0]
  · intro h1
    have h0 : st.counts (redisKey apiKey (getCurrentWindow now windowSize)) ≠ 0 := by
      rw [hc] at h1
      omega
    exact checkRateLimit_ok_ttl_unchanged apiKey windowSize now st h0

/-- C4 witness: the first call for `sk_test_free_1` with a 60-second
window sets a 120-second expiry on its key. -/
theorem checkRateLimit_expiry_spec_witness :
    (checkRateLimit "sk_test_free_1" 60 0 .ok freshStore).2.ttl
        (redisKey "sk_test_free_1" (getCurrentWindow 0 60)) = some (60 * 2)
    ∧ 2 * 60 ≤ 60 * 2 := by
  refine (checkRateLimit_expiry_spec "sk_test_free_1" 60 0 freshStore).1 ?_
  decide

/-- C5: `getCurrentWindow`, i.e. `floor(ms / (windowLength * 1000))`, equals
`floor(floor(ms / 1000) / windowLength)` (floor of unix seconds over the
window length); two timestamps in the same windowLength-second bucket get
the same identifier, and two timestamps straddling exactly one bucket
boundary get identifiers differing by exactly 1. -/
theorem getCurrentWindow_spec (w ms ms1 ms2 k : Nat) :
    getCurrentWindow ms w = (ms / 1000) / w
    ∧ ((ms1 / 1000) / w = (ms2 / 1000) / w →
        getCurrentWindow ms1 w = getCurrentWindow ms2 w)
    ∧ (w * 1000 * k ≤ ms1 → ms1 < w * 1000 * (k + 1) →
        w * 1000 * (k + 1) ≤ ms2 → ms2 < w * 1000 * (k + 2) →
        getCurrentWindow ms2 w = getCurrentWindow ms1 w + 1) := by
  have key : ∀ m : Nat, getCurrentWindow m w = (m / 1000) / w := by
    intro m
    unfold getCurrentWindow
    rw [Nat.div_div_eq_div_mul, Nat.mul_comm 1000 w]
  refine ⟨key ms, ?_, ?_⟩
  · intro h
    rw [key ms1, key ms2, h]
  · intro h1 h2 h3 h4
    have e1 : getCurrentWindow ms1 w = k := by
      unfold getCurrentWindow
      exact Nat.div_eq_of_lt_le (by rw [Nat.mul_comm]; exact h1)
        (by rw [Nat.mul_comm]; exact h2)
    have e2 : getCurrentWindow ms2 w = k + 1 := by
      unfold getCurrentWindow
      have h5 : w * 1000 * (k + 2) = (k + 1 + 1) * (w * 1000) := by ring
      exact Nat.div_eq_of_lt_le (by rw [Nat.mul_comm]; exact h3) (h5 ▸ h4)
    rw [e1, e2]

/-- C5 witness: with a 60-second window, millisecond timestamps 59999 and
60000 straddle the first bucket boundary and get window identifiers 0
and 1. -/
theorem getCurrentWindow_spec_witness :
    getCurrentWindow 60000 60 = getCurrentWindow 59999 60 + 1 :=
  (getCurrentWindow_spec 60 0 59999 60000 0).2.2 (by decide) (by decide)
    (by decide) (by decide)

/-- C6: the credential `"toString"` is not in `API_KEYS`, yet
`getTierFromAPIKey` does not resolve it to the default tier `'free'`:
`API_KEYS["toString"]` finds `Object.prototype.toString`, a truthy
function, so `|| 'free'` never fires.  The quota lookup then yields
`undefined`, and `count > undefined` is always false, so a request with
this credential is allowed at any count — here past count 1000000. -/
theorem getTierFromAPIKey_prototype_leak :
    API_KEYS.lookup "toString" = none
    ∧ getTierFromAPIKey "toString" = .protoVal "toString"
    ∧ getTierFromAPIKey "toString" ≠ .str "free"
    ∧ getRateLimitForAPIKey "toString" = none
    ∧ (checkRateLimit "toString" 60 0 .ok
        { counts := fun _ => 1000000, ttl := fun _ => none }).1.allowed = true := by
  refine ⟨by decide, by decide, by decide, by decide, ?_⟩
  rw [checkRateLimit_ok_fst]
  decide

/-- C7 counterexample: a configured window length of −5 is not rejected —
`parseInt` yields −5, which is truthy, so `WINDOW_SIZE` becomes −5 and
window identifiers are then computed with this non-positive length
(`Math.floor(120000 / (−5 · 1000)) = −24`). -/
theorem negative_window_not_rejected :
    resolveWindowSize (some (-5)) = -5
    ∧ ¬ 0 < resolveWindowSize (some (-5))
    ∧ getCurrentWindowZ 120000 (resolveWindowSize (some (-5))) = -24 := by
  decide

/-- C7 amended: startup performs no validation at all — an unparsable or
zero value is silently replaced by the default 60, and every non-zero
value, negative ones included, is kept unchanged; no configuration is
ever rejected. -/
theorem resolveWindowSize_spec (v : Int) :
    resolveWindowSize none = 60
    ∧ (v = 0 → resolveWindowSize (some v) = 60)
    ∧ (v ≠ 0 → resolveWindowSize (some v) = v) := by
  refine ⟨rfl, ?_, ?_⟩ <;> intro h <;> simp [resolveWindowSize, h]

/-- C7 amended witness: at the concrete configured value −5, the window
length used is −5. -/
theorem resolveWindowSize_spec_witness :
    resolveWindowSize (some (-5)) = -5 :=
  (resolveWindowSize_spec (-5)).2.2 (by decide)

theorem runN_ttl_unchanged (apiKey : String) (windowSize now : Nat)
    (st : Store)
    (h : st.counts (redisKey apiKey (getCurrentWindow now windowSize)) ≠ 0) :
    ∀ n, (runN apiKey windowSize now st n).ttl
        (redisKey apiKey (getCurrentWindow now windowSize)) =
      st.ttl (redisKey apiKey (getCurrentWindow now windowSize)) := by
  intro n
  induction n with
  | zero => rfl
  | succ n ih =>
    have hcnt : (runN apiKey windowSize now st n).counts
        (redisKey apiKey (getCurrentWindow now windowSize)) ≠ 0 := by
      rw [runN_counts]
      omega
    unfold runN
    rw [checkRateLimit_ok_ttl_unchanged apiKey windowSize now _ hcnt, ih]

/-- C8: `checkRateLimit` is a total function into `Decision` — the
`try`/`catch` absorbs every store error into the fail-open decision, and
a successful body is returned unchanged; no store behaviour surfaces an
error to the caller. -/
theorem checkRateLimit_absorbs_store_errors (apiKey : String)
    (windowSize now : Nat) (fault : CallFault) (st : Store) :
    (∀ (e : StoreErr) (st' : Store),
       checkRateLimitTry apiKey windowSize now fault st = (.error e, st') →
       checkRateLimit apiKey windowSize now fault st =
         (failOpenDecision apiKey, st'))
    ∧ ∀ (d : Decision) (st' : Store),
       checkRateLimitTry apiKey windowSize now fault st = (.ok d, st') →
       checkRateLimit apiKey windowSize now fault st = (d, st') := by
  constructor <;> intro x st' h <;> unfold checkRateLimit <;> rw [h]

/-- C8 witness: a failing increment for `sk_test_free_1` is absorbed into
the fail-open decision. -/
theorem checkRateLimit_absorbs_store_errors_witness :
    checkRateLimit "sk_test_free_1" 60 0 .incrFault freshStore =
      (failOpenDecision "sk_test_free_1", freshStore) :=
  (checkRateLimit_absorbs_store_errors "sk_test_free_1" 60 0 .incrFault
    freshStore).1 .unavailable freshStore rfl

/-- C9: for a present, non-empty credential, a denied decision is
rendered as a rate-limited (429) response whose retry-after hint equals
the window length and which carries the limit, remaining, window length
and tier metadata; an allowed decision is rendered as a success (200)
response with the same metadata. -/
theorem handleApiResource_spec (k : String) (windowSize now : Nat)
    (fault : CallFault) (st : Store) (hk : k ≠ "") :
    ((checkRateLimit k windowSize now fault st).1.allowed = false →
       (handleApiResource (some k) windowSize now fault st).1 =
         .rateLimited (checkRateLimit k windowSize now fault st).1.limit
           ((checkRateLimit k windowSize now fault st).1.remaining.getD 0)
           windowSize (checkRateLimit k windowSize now fault st).1.tier
           windowSize)
    ∧ ((checkRateLimit k windowSize now fault st).1.allowed = true →
       (handleApiResource (some k) windowSize now fault st).1 =
         .success (checkRateLimit k windowSize now fault st).1.limit
           ((checkRateLimit k windowSize now fault st).1.remaining.getD 0)
           windowSize (checkRateLimit k windowSize now fault st).1.tier) := by
  rcases hE : checkRateLimit k windowSize now fault st with ⟨d, st'⟩
  constructor <;> intro h <;> simp only [Prod.fst] at h <;>
    simp [handleApiResource, hE, hk, h]

/-- C9 witness: the 6th call for `sk_test_free_1` (quota 5) is rendered
as a 429 with limit 5, remaining 0, window 60, tier `'free'`, and a
retry-after of 60. -/
theorem handleApiResource_spec_witness :
    (handleApiResource (some "sk_test_free_1") 60 0 .ok
        (runN "sk_test_free_1" 60 0 freshStore 5)).1 =
      .rateLimited (some 5) 0 60 (.str "free") 60 := by
  have h := (handleApiResource_spec "sk_test_free_1" 60 0 .ok
    (runN "sk_test_free_1" 60 0 freshStore 5) (by decide)).1 (by decide)
  rw [h]
  decide

/-- C10: when the increment succeeds with count 1 but the expiry call
then fails, `checkRateLimit` returns the fail-open decision (allowed,
observed count 0, remaining = quota) although the store's counter now
stands at 1 — the reported count undercounts the store — and no expiry
is ever set on that key: not by this call, nor by any number of later
healthy calls in the same window. -/
theorem checkRateLimit_expire_failure_undercount (apiKey : String)
    (q windowSize now : Nat) (st : Store)
    (hQ : getRateLimitForAPIKey apiKey = some q)
    (h0 : st.counts (redisKey apiKey (getCurrentWindow now windowSize)) = 0)
    (httl : st.ttl (redisKey apiKey (getCurrentWindow now windowSize)) = none) :
    (checkRateLimit apiKey windowSize now .expireFault st).1 =
      { allowed := true, count := 0, limit := some q,
        tier := getTierFromAPIKey apiKey, remaining := some q,
        degraded := none }
    ∧ (checkRateLimit apiKey windowSize now .expireFault st).2.counts
        (redisKey apiKey (getCurrentWindow now windowSize)) = 1
    ∧ (checkRateLimit apiKey windowSize now .expireFault st).2.ttl
        (redisKey apiKey (getCurrentWindow now windowSize)) = none
    ∧ ∀ n : Nat,
        (runN apiKey windowSize now
            (checkRateLimit apiKey windowSize now .expireFault st).2 n).ttl
          (redisKey apiKey (getCurrentWindow now windowSize)) = none := by
  have hmain : checkRateLimit apiKey windowSize now .expireFault st =
      (failOpenDecision apiKey,
       { counts := fun kk =>
           if kk = redisKey apiKey (getCurrentWindow now windowSize)
           then st.counts (redisKey apiKey (getCurrentWindow now windowSize)) + 1
           else st.counts kk,
         ttl := st.ttl }) := by
    unfold checkRateLimit checkRateLimitTry Store.incr
    simp [h0]
  refine ⟨?_, ?_, ?_, ?_⟩
  · rw [hmain]
    simp [failOpenDecision, hQ]
  · rw [hmain]
    simp [h0]
  · rw [hmain]
    simpa using httl
  · intro n
    rw [hmain, runN_ttl_unchanged apiKey windowSize now _ (by simp [h0]) n]
    simpa using httl

/-- C10 witness: for `sk_test_free_1` from a fresh store, the failing
first call yields the fail-open decision, leaves the store counter at 1
with no expiry, and 3 subsequent healthy calls still set no expiry. -/
theorem checkRateLimit_expire_failure_undercount_witness :
    (checkRateLimit "sk_test_free_1" 60 0 .expireFault freshStore).1 =
      { allowed := true, count := 0, limit := some 5,
        tier := getTierFromAPIKey "sk_test_free_1", remaining := some 5,
        degraded := none }
    ∧ (checkRateLimit "sk_test_free_1" 60 0 .expireFault freshStore).2.counts
        (redisKey "sk_test_free_1" (getCurrentWindow 0 60)) = 1
    ∧ (checkRateLimit "sk_test_free_1" 60 0 .expireFault freshStore).2.ttl
        (redisKey "sk_test_free_1" (getCurrentWindow 0 60)) = none
    ∧ (runN "sk_test_free_1" 60 0
          (checkRateLimit "sk_test_free_1" 60 0 .expireFault freshStore).2 3).ttl
        (redisKey "sk_test_free_1" (getCurrentWindow 0 60)) = none := by
  have h := checkRateLimit_expire_failure_undercount "sk_test_free_1" 5 60 0
    freshStore (by decide) rfl rfl
  exact ⟨h.1, h.2.1, h.2.2.1, h.2.2.2 3⟩

end RateLimiter
